import Mathlib

/-!
Verification of the distance-aggregation and ranking core of the `loco`
single-page application (`src/frontend/src/App.tsx`).

The embedding below is a shallow model of the JavaScript/TypeScript source:

* JavaScript numbers that flow through the aggregation are modelled by `JSVal`,
  a rational number together with the JavaScript values `null`, `undefined`
  and `NaN` that the matrix response may contain.  Arithmetic on `JSVal`
  follows JavaScript coercion: `null` coerces to `0`, `undefined` coerces to
  `NaN`, and `NaN` is absorbing.
* The Mapbox matrix provider is modelled as a function from the coordinate
  array and transport profile to a `ProviderOutcome` (either a thrown
  exception or an HTTP response carrying a status code and a body).
* `calculateDistances` (App.tsx lines 338-387) is translated with explicit
  `Except Unit` for the surrounding try/catch: any thrown error leaves the
  `placesToStay` state unchanged.
* The sort in `PlacesToStayDisplay` (App.tsx lines 779-791) copies the array
  and sorts it with a stable comparator on the chosen distance field with
  `|| 0` fallback; it is modelled by `List.mergeSort` on the same key, which
  is the unique stable sort for this total preorder.
-/

namespace Loco

/-- JavaScript values reaching the numeric parts of the aggregation:
a finite number (modelled as a rational), `null`, `undefined`, or `NaN`. -/
inductive JSVal where
  | num (q : ℚ)
  | null
  | undefined
  | nan
deriving DecidableEq, Repr

/-- JavaScript `ToNumber` coercion on `JSVal`, with `none` standing for `NaN`
(`Number(null) = 0`, `Number(undefined) = NaN`). -/
def JSVal.toNum : JSVal → Option ℚ
  | .num q => some q
  | .null => some 0
  | .undefined => none
  | .nan => none

/-- JavaScript `+` on two numeric operands (after `ToNumber` coercion). -/
def jsAdd (a b : JSVal) : JSVal :=
  match a.toNum, b.toNum with
  | some x, some y => .num (x + y)
  | _, _ => .nan

/-- JavaScript `*` on two numeric operands (after `ToNumber` coercion). -/
def jsMul (a b : JSVal) : JSVal :=
  match a.toNum, b.toNum with
  | some x, some y => .num (x * y)
  | _, _ => .nan

/-- JavaScript `/` on two numeric operands.  Every divisor in the translated
code is nonzero (`1000`, `60`, and `pointsOfInterest.length ≥ 1` on the only
path that divides by it), so the zero-divisor case is unreachable and mapped
to `NaN`. -/
def jsDiv (a b : JSVal) : JSVal :=
  match a.toNum, b.toNum with
  | some x, some y => if y = 0 then .nan else .num (x / y)
  | _, _ => .nan

structure LatLon where
  lat : ℚ
  lon : ℚ
deriving DecidableEq, Repr

structure Location where
  coordinates : LatLon
  address : String
  placeName : Option String := none
deriving DecidableEq, Repr

structure PointOfInterest where
  id : String
  name : String
  location : Location
  note : Option String := none
  url : Option String := none
deriving DecidableEq, Repr

/-- One value of the `distancesToPOIs` object: `{ distance, duration }`. -/
structure DistanceDuration where
  distance : JSVal
  duration : JSVal
deriving DecidableEq, Repr

/-- `PlaceToStay` with its derived fields.  A field that is absent in the
TypeScript record (`averageDistance?` etc.) reads as `undefined` in
JavaScript, so the derived scalars are `JSVal` with default `.undefined`; the
`distancesToPOIs` object is an association list in insertion order
(JavaScript string-keyed objects preserve insertion order, and target ids are
distinct by construction: `crypto.randomUUID()`). -/
structure PlaceToStay where
  id : String
  name : String
  location : Location
  note : Option String := none
  url : Option String := none
  averageDistance : JSVal := .undefined
  cumulativeDistance : JSVal := .undefined
  averageTime : JSVal := .undefined
  cumulativeTime : JSVal := .undefined
  distancesToPOIs : Option (List (String × DistanceDuration)) := none
deriving DecidableEq, Repr

inductive TransportProfile where
  | walking
  | drivingTraffic
  | cycling
deriving DecidableEq, Repr

inductive DistanceCalculationMode where
  | average
  | cumulative
deriving DecidableEq, Repr

/-- The body of a matrix response: `distances` and `durations` may each be
absent/null (the code guards with `|| []`), and each cell is a `JSVal`
(`null` marks an unreachable pair). -/
structure MatrixBody where
  distances : Option (List (List JSVal)) := none
  durations : Option (List (List JSVal)) := none
deriving DecidableEq, Repr

/-- What one call of the Mapbox matrix client does: either `.send()` throws,
or it yields a response with a status code and body. -/
inductive ProviderOutcome where
  | throws
  | response (statusCode : ℕ) (body : MatrixBody)
deriving DecidableEq, Repr

/-- `fetchMapBoxDirectionsMatrix` (App.tsx lines 25-44): awaits the matrix
client, throws on a status code other than 200, otherwise returns the body. -/
def fetchMapBoxDirectionsMatrix : ProviderOutcome → Except Unit MatrixBody
  | .throws => .error ()
  | .response statusCode body =>
    if statusCode = 200 then .ok body else .error ()

/-- The combined coordinate array (App.tsx lines 342-345): places-to-stay
coordinates first, then point-of-interest coordinates, each in list order. -/
def allLocationsOf (placesToStay : List PlaceToStay)
    (pointsOfInterest : List PointOfInterest) : List LatLon :=
  placesToStay.map (fun place => place.location.coordinates) ++
    pointsOfInterest.map (fun poi => poi.location.coordinates)

/-- Reading `m[i][j]` in JavaScript: if row `i` is absent the subscript on
`undefined` throws a TypeError; an absent cell inside an existing row reads
as `undefined`. -/
def readCell (m : List (List JSVal)) (i j : ℕ) : Except Unit JSVal :=
  match m[i]? with
  | none => .error ()
  | some row => .ok (row[j]?.getD .undefined)

/-- `(distances[placeIndex][matrixIndex] / 1000) * 0.621371` — convert a raw
matrix distance in meters to miles (App.tsx lines 364-365). -/
def convertDistance (cell : JSVal) : JSVal :=
  jsMul (jsDiv cell (.num 1000)) (.num (621371 / 1000000))

/-- `durations[placeIndex][matrixIndex] / 60` — convert a raw matrix duration
in seconds to minutes (App.tsx line 366). -/
def convertDuration (cell : JSVal) : JSVal :=
  jsDiv cell (.num 60)

/-- The `pointsOfInterest.forEach` loop of App.tsx lines 362-371, for one
place at `placeIndex`: accumulates the `distancesToPOIs` association list in
insertion order together with `totalDistance` and `totalTime`.  A missing
matrix row makes the cell read throw, aborting the whole computation. -/
def processPOIs (distances durations : List (List JSVal))
    (placeIndex placesToStayCount : ℕ) :
    List PointOfInterest → ℕ → List (String × DistanceDuration) → JSVal → JSVal →
      Except Unit (List (String × DistanceDuration) × JSVal × JSVal)
  | [], _, acc, totalDistance, totalTime => .ok (acc, totalDistance, totalTime)
  | poi :: rest, poiIndex, acc, totalDistance, totalTime => do
    let matrixIndex := placesToStayCount + poiIndex
    let dCell ← readCell distances placeIndex matrixIndex
    let tCell ← readCell durations placeIndex matrixIndex
    let distance := convertDistance dCell
    let duration := convertDuration tCell
    processPOIs distances durations placeIndex placesToStayCount rest (poiIndex + 1)
      (acc ++ [(poi.id, ⟨distance, duration⟩)])
      (jsAdd totalDistance distance) (jsAdd totalTime duration)

/-- The body of `placesToStay.map((place, placeIndex) => ...)` in App.tsx
lines 355-381: computes the fresh `distancesToPOIs` map and replaces all four
derived scalars on the spread copy of `place`. -/
def updatePlace (distances durations : List (List JSVal))
    (placesToStayCount : ℕ) (pointsOfInterest : List PointOfInterest)
    (placeIndex : ℕ) (place : PlaceToStay) : Except Unit PlaceToStay := do
  let (distancesToPOIs, totalDistance, totalTime) ←
    processPOIs distances durations placeIndex placesToStayCount
      pointsOfInterest 0 [] (.num 0) (.num 0)
  .ok { place with
    distancesToPOIs := some distancesToPOIs
    averageDistance := jsDiv totalDistance (.num (pointsOfInterest.length : ℚ))
    cumulativeDistance := totalDistance
    averageTime := jsDiv totalTime (.num (pointsOfInterest.length : ℚ))
    cumulativeTime := totalTime }

/-- The `try` block of `calculateDistances` (App.tsx lines 341-383): fetch the
matrix, default the `distances`/`durations` arrays with `|| []`, and map every
place to its updated copy.  Any throw (fetch failure or missing matrix row)
surfaces as `.error`. -/
def aggregateBody (placesToStay : List PlaceToStay)
    (pointsOfInterest : List PointOfInterest) (outcome : ProviderOutcome) :
    Except Unit (List PlaceToStay) := do
  let body ← fetchMapBoxDirectionsMatrix outcome
  let distances := body.distances.getD []
  let durations := body.durations.getD []
  let placesToStayCount := placesToStay.length
  placesToStay.enum.mapM (fun p =>
    updatePlace distances durations placesToStayCount pointsOfInterest p.1 p.2)

/-- `calculateDistances` (App.tsx lines 338-387).  Returns the new
`placesToStay` state: unchanged when either list is empty (early return),
unchanged when anything in the `try` block throws (the `catch` only logs), and
otherwise the freshly mapped list passed to `setPlacesToStay`. -/
def calculateDistances (provider : List LatLon → TransportProfile → ProviderOutcome)
    (placesToStay : List PlaceToStay) (pointsOfInterest : List PointOfInterest)
    (transportProfile : TransportProfile) : List PlaceToStay :=
  if placesToStay.length = 0 ∨ pointsOfInterest.length = 0 then placesToStay
  else
    match aggregateBody placesToStay pointsOfInterest
        (provider (allLocationsOf placesToStay pointsOfInterest) transportProfile) with
    | .ok updated => updated
    | .error _ => placesToStay

/-- JavaScript `v || 0` on the values a derived field can hold: `null`,
`undefined`, `NaN` and `0` are falsy and give `0`; any other number gives
itself. -/
def orZero (v : JSVal) : ℚ :=
  match v with
  | .num q => q
  | _ => 0

/-- The comparator key of the sort in `PlacesToStayDisplay` (App.tsx lines
781-790): `averageDistance || 0` in average mode, `cumulativeDistance || 0`
otherwise. -/
def sortKey (distanceMode : DistanceCalculationMode) (place : PlaceToStay) : ℚ :=
  match distanceMode with
  | .average => orZero place.averageDistance
  | .cumulative => orZero place.cumulativeDistance

/-- `[...placesToStay].sort((a, b) => distanceA - distanceB)` (App.tsx lines
781-791).  `Array.prototype.sort` is stable and the comparator realises the
total preorder `sortKey a ≤ sortKey b`, so the JavaScript result is the unique
stable sort for that preorder, which `List.mergeSort` computes. -/
def sortedPlacesToStay (placesToStay : List PlaceToStay)
    (distanceMode : DistanceCalculationMode) : List PlaceToStay :=
  placesToStay.mergeSort
    (fun a b => decide (sortKey distanceMode a ≤ sortKey distanceMode b))

/-- The value of `m[i][j]` when row `i` is present, with an absent cell
inside the row reading as `undefined`. -/
def cellAt (m : List (List JSVal)) (i j : ℕ) : JSVal :=
  ((m[i]?.getD [])[j]?).getD .undefined

/-- The `distancesToPOIs` entry computed for the enumerated target `p`
(`p.1` is the target's index `j`) and the anchor at `placeIndex`: the matrix
is read at row `placeIndex`, column `placesToStayCount + j`. -/
def pairFor (distances durations : List (List JSVal))
    (placesToStayCount placeIndex : ℕ) (p : ℕ × PointOfInterest) :
    String × DistanceDuration :=
  (p.2.id,
    ⟨convertDistance (cellAt distances placeIndex (placesToStayCount + p.1)),
     convertDuration (cellAt durations placeIndex (placesToStayCount + p.1))⟩)

/-- The full association list a successful aggregation computes for the
anchor at `placeIndex`: one entry per target, in target-list order. -/
def freshPairs (distances durations : List (List JSVal))
    (placesToStayCount : ℕ) (pointsOfInterest : List PointOfInterest)
    (placeIndex : ℕ) : List (String × DistanceDuration) :=
  pointsOfInterest.enum.map
    (pairFor distances durations placesToStayCount placeIndex)

/-- Left fold of `jsAdd` starting from `0`, as accumulated by the source's
`totalDistance += distance` / `totalTime += duration` loop. -/
def sumJS (l : List JSVal) : JSVal := l.foldl jsAdd (.num 0)

/-- The anchor produced by a successful aggregation: the spread copy of
`place` with the `distancesToPOIs` map and all four derived scalars replaced
by freshly computed values (none of which read the old derived fields). -/
def freshPlace (distances durations : List (List JSVal))
    (placesToStayCount : ℕ) (pointsOfInterest : List PointOfInterest)
    (placeIndex : ℕ) (place : PlaceToStay) : PlaceToStay :=
  let pairs := freshPairs distances durations placesToStayCount
    pointsOfInterest placeIndex
  let totalDistance := sumJS (pairs.map (fun pr => pr.2.distance))
  let totalTime := sumJS (pairs.map (fun pr => pr.2.duration))
  { place with
    distancesToPOIs := some pairs
    averageDistance := jsDiv totalDistance (.num (pointsOfInterest.length : ℚ))
    cumulativeDistance := totalDistance
    averageTime := jsDiv totalTime (.num (pointsOfInterest.length : ℚ))
    cumulativeTime := totalTime }

/-- Row `i` is present in both matrices for every anchor index below `m` —
the condition under which no matrix read throws. -/
def rowsPresent (distances durations : List (List JSVal)) (m : ℕ) : Prop :=
  ∀ i, i < m → (distances[i]?).isSome ∧ (durations[i]?).isSome

/-! ### Fixtures used by the witnesses -/

def locOrigin : Location := { coordinates := ⟨0, 0⟩, address := "origin" }

def place5a : PlaceToStay :=
  { id := "a", name := "a", location := locOrigin, averageDistance := .num 5 }

def place5b : PlaceToStay :=
  { id := "b", name := "b", location := locOrigin, averageDistance := .num 5 }

def place1c : PlaceToStay :=
  { id := "c", name := "c", location := locOrigin, averageDistance := .num 1 }

def poiT1 : PointOfInterest := { id := "T1", name := "T1", location := locOrigin }

def poiT2 : PointOfInterest := { id := "T2", name := "T2", location := locOrigin }

def placeA : PlaceToStay := { id := "A", name := "A", location := locOrigin }

/-- The matrix body of the spec §8 scenario: one anchor, two targets. -/
def okBody : MatrixBody :=
  { distances := some [[.num 0, .num 1000, .num 3000]],
    durations := some [[.num 0, .num 60, .num 180]] }

def okOutcome : ProviderOutcome := .response 200 okBody

/-- A response in which the anchor/target cell is unreachable (`null`). -/
def nullBody : MatrixBody :=
  { distances := some [[.num 0, .null]],
    durations := some [[.num 0, .null]] }

def nullOutcome : ProviderOutcome := .response 200 nullBody

/-- A provider call failing (thrown error or non-success status). -/
def providerFails : ProviderOutcome → Prop
  | .throws => True
  | .response statusCode _ => statusCode ≠ 200

/-! ### Ranker lemmas -/

theorem sortKeyLE_trans (distanceMode : DistanceCalculationMode) :
    ∀ a b c : PlaceToStay,
      decide (sortKey distanceMode a ≤ sortKey distanceMode b) = true →
      decide (sortKey distanceMode b ≤ sortKey distanceMode c) = true →
      decide (sortKey distanceMode a ≤ sortKey distanceMode c) = true := by
  intro a b c hab hbc
  simp only [decide_eq_true_eq] at *
  exact le_trans hab hbc

theorem sortKeyLE_total (distanceMode : DistanceCalculationMode) :
    ∀ a b : PlaceToStay,
      (decide (sortKey distanceMode a ≤ sortKey distanceMode b) ||
        decide (sortKey distanceMode b ≤ sortKey distanceMode a)) = true := by
  intro a b
  simp only [Bool.or_eq_true, decide_eq_true_eq]
  exact le_total _ _

/-! ### Ranker claims -/

/-- C8: `sortedPlacesToStay` (the Ranker) orders anchors in non-decreasing
order of the key `averageDistance` in average mode and `cumulativeDistance`
otherwise, a missing/undefined key value being treated as `0` (`orZero`), and
anchors with equal keys keep their relative input order (any equal-key pair
that is a sublist of the input is still a sublist of the output). -/
theorem rank_sorted_stable (placesToStay : List PlaceToStay)
    (distanceMode : DistanceCalculationMode) :
    (∀ place, sortKey DistanceCalculationMode.average place =
      orZero place.averageDistance) ∧
    (∀ place, sortKey DistanceCalculationMode.cumulative place =
      orZero place.cumulativeDistance) ∧
    orZero JSVal.undefined = 0 ∧
    (sortedPlacesToStay placesToStay distanceMode).Pairwise
      (fun a b => sortKey distanceMode a ≤ sortKey distanceMode b) ∧
    (∀ a b, sortKey distanceMode a = sortKey distanceMode b →
      List.Sublist [a, b] placesToStay →
      List.Sublist [a, b] (sortedPlacesToStay placesToStay distanceMode)) := by
  refine ⟨fun _ => rfl, fun _ => rfl, rfl, ?_, ?_⟩
  · have h := List.sorted_mergeSort
      (sortKeyLE_trans distanceMode) (sortKeyLE_total distanceMode) placesToStay
    exact h.imp (fun hab => by simpa using hab)
  · intro a b hkey hsub
    exact List.pair_sublist_mergeSort (sortKeyLE_trans distanceMode)
      (sortKeyLE_total distanceMode) (by simp [hkey]) hsub

/-- Witness for C8: two anchors with equal `averageDistance` keep their
relative input order through the sort. -/
theorem rank_sorted_stable_witness :
    List.Sublist [place5a, place5b]
      (sortedPlacesToStay [place5a, place5b, place1c]
        DistanceCalculationMode.average) :=
  (rank_sorted_stable [place5a, place5b, place1c]
      DistanceCalculationMode.average).2.2.2.2 place5a place5b (by decide)
    (.cons₂ place5a (.cons₂ place5b (List.nil_sublist [place1c])))

/-- C9: the Ranker is idempotent — sorting an already sorted list returns it
unchanged, so `rank(rank(xs, mode), mode) = rank(xs, mode)`. -/
theorem rank_idempotent (placesToStay : List PlaceToStay)
    (distanceMode : DistanceCalculationMode) :
    sortedPlacesToStay (sortedPlacesToStay placesToStay distanceMode)
        distanceMode =
      sortedPlacesToStay placesToStay distanceMode := by
  unfold sortedPlacesToStay
  exact List.mergeSort_of_sorted
    (List.sorted_mergeSort (sortKeyLE_trans distanceMode)
      (sortKeyLE_total distanceMode) placesToStay)

/-- C10: the Ranker is pure and total — it is a Lean function defined for
every input (including anchors whose derived fields are `undefined`), it does
not modify its input (the source copies the array with `[...placesToStay]`
before sorting, and the model is pure), and its output is a permutation of
the input: exactly the same anchor values, every field unchanged. -/
theorem rank_permutation (placesToStay : List PlaceToStay)
    (distanceMode : DistanceCalculationMode) :
    (sortedPlacesToStay placesToStay distanceMode).Perm placesToStay :=
  List.mergeSort_perm placesToStay _

/-! ### Aggregation claims: empty input, provider failure, unit conversion,
null-cell coercion -/

/-- C5: with an empty anchor list or an empty target list,
`calculateDistances` is a no-op: it returns the input anchors unchanged with
every derived field untouched.  The statement holds for every `provider`
function, so the routing provider is never consulted on this path (the early
return precedes the fetch). -/
theorem calculateDistances_noop
    (provider : List LatLon → TransportProfile → ProviderOutcome)
    (placesToStay : List PlaceToStay) (pointsOfInterest : List PointOfInterest)
    (transportProfile : TransportProfile)
    (h : placesToStay.length = 0 ∨ pointsOfInterest.length = 0) :
    calculateDistances provider placesToStay pointsOfInterest transportProfile =
      placesToStay := by
  unfold calculateDistances
  exact if_pos h

/-- Witness for C5 at `placesToStay = []`. -/
theorem calculateDistances_noop_witness :
    calculateDistances (fun _ _ => .throws) [] [poiT1]
      TransportProfile.walking = [] :=
  calculateDistances_noop (fun _ _ => .throws) [] [poiT1]
    TransportProfile.walking (Or.inl rfl)

/-- C4: when the routing call fails — the provider throws, or reports a
non-success status (which `fetchMapBoxDirectionsMatrix` turns into a thrown
error) — the aggregation body fails with the thrown error (the
`ProviderError`) and `calculateDistances` leaves the anchor list exactly as
it was: every previously computed derived field survives unchanged, with no
partial overwrite (the `catch` block only logs and never calls
`setPlacesToStay`). -/
theorem calculateDistances_provider_error
    (provider : List LatLon → TransportProfile → ProviderOutcome)
    (placesToStay : List PlaceToStay) (pointsOfInterest : List PointOfInterest)
    (transportProfile : TransportProfile)
    (h : providerFails
      (provider (allLocationsOf placesToStay pointsOfInterest) transportProfile)) :
    calculateDistances provider placesToStay pointsOfInterest transportProfile =
      placesToStay ∧
    aggregateBody placesToStay pointsOfInterest
      (provider (allLocationsOf placesToStay pointsOfInterest)
        transportProfile) = .error () := by
  have hfetch : fetchMapBoxDirectionsMatrix
      (provider (allLocationsOf placesToStay pointsOfInterest)
        transportProfile) = .error () := by
    cases hp : provider (allLocationsOf placesToStay pointsOfInterest)
        transportProfile with
    | throws => rfl
    | response statusCode body =>
      rw [hp] at h
      simp only [providerFails] at h
      simp [fetchMapBoxDirectionsMatrix, h]
  have hbody : aggregateBody placesToStay pointsOfInterest
      (provider (allLocationsOf placesToStay pointsOfInterest)
        transportProfile) = .error () := by
    simp [aggregateBody, hfetch, Bind.bind, Except.bind]
  refine ⟨?_, hbody⟩
  unfold calculateDistances
  by_cases hg : placesToStay.length = 0 ∨ pointsOfInterest.length = 0
  · exact if_pos hg
  · rw [if_neg hg, hbody]

/-- Witness for C4: an HTTP 500 response leaves a previously aggregated
anchor untouched. -/
theorem calculateDistances_provider_error_witness :
    calculateDistances (fun _ _ => .response 500 {}) [place5a] [poiT1]
      TransportProfile.walking = [place5a] :=
  (calculateDistances_provider_error (fun _ _ => .response 500 {}) [place5a]
    [poiT1] TransportProfile.walking (by simp [providerFails])).1

/-- C3: each raw matrix distance in meters is converted to miles by exactly
`miles = meters / 1000 * 0.621371` and each raw duration in seconds to
minutes by exactly `minutes = seconds / 60` (`convertDistance` and
`convertDuration` are the conversions applied to every cell read by
`processPOIs`); in particular 1000 meters yields 0.621371 miles and 120
seconds yields 2 minutes. -/
theorem conversion_formulas :
    (∀ q : ℚ, convertDistance (.num q) = .num (q / 1000 * (621371 / 1000000))) ∧
    (∀ q : ℚ, convertDuration (.num q) = .num (q / 60)) ∧
    convertDistance (.num 1000) = .num (621371 / 1000000) ∧
    convertDuration (.num 120) = .num 2 := by
  refine ⟨fun q => ?_, fun q => ?_, ?_, ?_⟩ <;>
    norm_num [convertDistance, convertDuration, jsDiv, jsMul, JSVal.toNum]

/-- Counterexample to C1: a `null` (unreachable) matrix cell is not a hard
failure.  On a concrete aggregation whose anchor/target cell is `null`,
`calculateDistances` succeeds and returns an updated anchor in which that
cell has been silently coerced to `0` (JavaScript `null / 1000 = 0`). -/
theorem null_cell_not_hard_failure :
    calculateDistances (fun _ _ => nullOutcome) [placeA] [poiT1]
        TransportProfile.walking =
      [{ placeA with
          distancesToPOIs := some [("T1", ⟨.num 0, .num 0⟩)],
          averageDistance := .num 0, cumulativeDistance := .num 0,
          averageTime := .num 0, cumulativeTime := .num 0 }] ∧
    calculateDistances (fun _ _ => nullOutcome) [placeA] [poiT1]
        TransportProfile.walking ≠ [placeA] := by
  constructor
  · simp [calculateDistances, aggregateBody, fetchMapBoxDirectionsMatrix,
      nullOutcome, nullBody, updatePlace, processPOIs, readCell,
      convertDistance, convertDuration, jsDiv, jsMul, jsAdd, JSVal.toNum,
      List.enum, List.mapM.loop, Bind.bind, Except.bind, pure, Except.pure,
      placeA, poiT1]
  · simp [calculateDistances, aggregateBody, fetchMapBoxDirectionsMatrix,
      nullOutcome, nullBody, updatePlace, processPOIs, readCell,
      convertDistance, convertDuration, jsDiv, jsMul, jsAdd, JSVal.toNum,
      List.enum, List.mapM.loop, Bind.bind, Except.bind, pure, Except.pure,
      placeA, poiT1]

/-! ### Characterization of a successful aggregation -/

theorem processPOIs_eq (distances durations : List (List JSVal))
    (placeIndex placesToStayCount : ℕ) (drow trow : List JSVal)
    (hd : distances[placeIndex]? = some drow)
    (ht : durations[placeIndex]? = some trow) :
    ∀ (pois : List PointOfInterest) (k : ℕ)
      (acc : List (String × DistanceDuration)) (td tt : JSVal),
      processPOIs distances durations placeIndex placesToStayCount
          pois k acc td tt =
        .ok (acc ++ (pois.enumFrom k).map
            (pairFor distances durations placesToStayCount placeIndex),
          (((pois.enumFrom k).map
              (pairFor distances durations placesToStayCount placeIndex)).map
            (fun pr => pr.2.distance)).foldl jsAdd td,
          (((pois.enumFrom k).map
              (pairFor distances durations placesToStayCount placeIndex)).map
            (fun pr => pr.2.duration)).foldl jsAdd tt) := by
  intro pois
  induction pois with
  | nil => intro k acc td tt; simp [processPOIs]
  | cons poi rest ih =>
    intro k acc td tt
    have hcd : readCell distances placeIndex (placesToStayCount + k) =
        .ok (cellAt distances placeIndex (placesToStayCount + k)) := by
      simp [readCell, cellAt, hd]
    have hct : readCell durations placeIndex (placesToStayCount + k) =
        .ok (cellAt durations placeIndex (placesToStayCount + k)) := by
      simp [readCell, cellAt, ht]
    simp only [processPOIs, hcd, hct, Bind.bind, Except.bind]
    rw [ih (k + 1)]
    simp [pairFor]

theorem updatePlace_eq (distances durations : List (List JSVal))
    (placesToStayCount : ℕ) (pointsOfInterest : List PointOfInterest)
    (placeIndex : ℕ) (place : PlaceToStay)
    (hd : (distances[placeIndex]?).isSome)
    (ht : (durations[placeIndex]?).isSome) :
    updatePlace distances durations placesToStayCount pointsOfInterest
        placeIndex place =
      .ok (freshPlace distances durations placesToStayCount pointsOfInterest
        placeIndex place) := by
  obtain ⟨drow, hdrow⟩ := Option.isSome_iff_exists.mp hd
  obtain ⟨trow, htrow⟩ := Option.isSome_iff_exists.mp ht
  simp only [updatePlace,
    processPOIs_eq distances durations placeIndex placesToStayCount drow trow
      hdrow htrow pointsOfInterest 0 [] (.num 0) (.num 0),
    Bind.bind, Except.bind]
  simp [freshPlace, freshPairs, sumJS, List.enum]

theorem mapM_ok_of_map {α β : Type} (f : α → Except Unit β) (g : α → β) :
    ∀ l : List α, (∀ a ∈ l, f a = .ok (g a)) → l.mapM f = .ok (l.map g) := by
  intro l
  induction l with
  | nil => intro _; rfl
  | cons a rest ih =>
    intro h
    rw [List.mapM_cons, h a (List.mem_cons_self a rest),
      ih (fun b hb => h b (List.mem_cons_of_mem a hb))]
    rfl

theorem aggregateBody_eq (placesToStay : List PlaceToStay)
    (pointsOfInterest : List PointOfInterest) (body : MatrixBody)
    (hrows : rowsPresent (body.distances.getD []) (body.durations.getD [])
      placesToStay.length) :
    aggregateBody placesToStay pointsOfInterest (.response 200 body) =
      .ok (placesToStay.enum.map (fun p =>
        freshPlace (body.distances.getD []) (body.durations.getD [])
          placesToStay.length pointsOfInterest p.1 p.2)) := by
  have hfetch : fetchMapBoxDirectionsMatrix (.response 200 body) = .ok body := by
    simp [fetchMapBoxDirectionsMatrix]
  simp only [aggregateBody, hfetch, Bind.bind, Except.bind]
  apply mapM_ok_of_map
  intro p hp
  have h1 : p.1 < placesToStay.length := by
    simpa using List.fst_lt_add_of_mem_enumFrom hp
  exact updatePlace_eq _ _ _ _ _ _ (hrows p.1 h1).1 (hrows p.1 h1).2

theorem calculateDistances_eq
    (provider : List LatLon → TransportProfile → ProviderOutcome)
    (placesToStay : List PlaceToStay) (pointsOfInterest : List PointOfInterest)
    (transportProfile : TransportProfile) (body : MatrixBody)
    (hne : ¬(placesToStay.length = 0 ∨ pointsOfInterest.length = 0))
    (hp : provider (allLocationsOf placesToStay pointsOfInterest)
      transportProfile = .response 200 body)
    (hrows : rowsPresent (body.distances.getD []) (body.durations.getD [])
      placesToStay.length) :
    calculateDistances provider placesToStay pointsOfInterest transportProfile =
      placesToStay.enum.map (fun p =>
        freshPlace (body.distances.getD []) (body.durations.getD [])
          placesToStay.length pointsOfInterest p.1 p.2) := by
  unfold calculateDistances
  rw [if_neg hne, hp, aggregateBody_eq placesToStay pointsOfInterest body hrows]

/-- `getElem?` on the result of a successful aggregation. -/
theorem freshList_getElem (placesToStay : List PlaceToStay)
    (g : ℕ × PlaceToStay → PlaceToStay) (i : ℕ) :
    (placesToStay.enum.map g)[i]? =
      (placesToStay[i]?).map (fun place => g (i, place)) := by
  rw [List.getElem?_map, List.getElem?_enum]
  cases placesToStay[i]? <;> simp

theorem jsAdd_num_or_nan (a b : JSVal) :
    jsAdd a b = .nan ∨ ∃ q, jsAdd a b = .num q := by
  unfold jsAdd
  cases a.toNum <;> cases b.toNum <;> simp

theorem foldl_jsAdd_num_or_nan (l : List JSVal) :
    ∀ v, (v = .nan ∨ ∃ q, v = .num q) →
      (l.foldl jsAdd v = .nan ∨ ∃ q, l.foldl jsAdd v = .num q) := by
  induction l with
  | nil => intro v hv; simpa using hv
  | cons x xs ih =>
    intro v hv
    rw [List.foldl_cons]
    exact ih _ (jsAdd_num_or_nan v x)

theorem jsDiv_mul_cancel (v : JSVal) (n : ℚ) (hn : n ≠ 0)
    (hv : v = .nan ∨ ∃ q, v = .num q) :
    jsMul (jsDiv v (.num n)) (.num n) = v := by
  rcases hv with h | ⟨q, h⟩ <;> subst h <;>
    simp [jsDiv, jsMul, JSVal.toNum, hn, div_mul_cancel₀]

/-! ### Remaining aggregation claims -/

/-- C2: for non-empty anchors and targets, the aggregation builds the
provider's coordinate array as the anchor coordinates followed by the target
coordinates, each in original order, and the value stored for anchor `i` and
target `j` is read from the response matrices at row `i`, column
`placesToStay.length + j`.  Every column used for a target value is of the
form `placesToStay.length + j`, so the anchor self-columns
`0..placesToStay.length - 1` are never used for target values. -/
theorem aggregate_positional
    (provider : List LatLon → TransportProfile → ProviderOutcome)
    (placesToStay : List PlaceToStay) (pointsOfInterest : List PointOfInterest)
    (transportProfile : TransportProfile) (body : MatrixBody)
    (hm : placesToStay.length ≠ 0) (hn : pointsOfInterest.length ≠ 0)
    (hp : provider (allLocationsOf placesToStay pointsOfInterest)
      transportProfile = .response 200 body)
    (hrows : rowsPresent (body.distances.getD []) (body.durations.getD [])
      placesToStay.length) :
    allLocationsOf placesToStay pointsOfInterest =
      placesToStay.map (fun place => place.location.coordinates) ++
        pointsOfInterest.map (fun poi => poi.location.coordinates) ∧
    (calculateDistances provider placesToStay pointsOfInterest
        transportProfile).length = placesToStay.length ∧
    ∀ (i : ℕ) (place : PlaceToStay), placesToStay[i]? = some place →
      (calculateDistances provider placesToStay pointsOfInterest
          transportProfile)[i]? =
        some (freshPlace (body.distances.getD []) (body.durations.getD [])
          placesToStay.length pointsOfInterest i place) ∧
      (freshPlace (body.distances.getD []) (body.durations.getD [])
          placesToStay.length pointsOfInterest i place).distancesToPOIs =
        some (freshPairs (body.distances.getD []) (body.durations.getD [])
          placesToStay.length pointsOfInterest i) ∧
      ∀ (j : ℕ) (poi : PointOfInterest), pointsOfInterest[j]? = some poi →
        (freshPairs (body.distances.getD []) (body.durations.getD [])
            placesToStay.length pointsOfInterest i)[j]? =
          some (poi.id,
            ⟨convertDistance (cellAt (body.distances.getD []) i
                (placesToStay.length + j)),
             convertDuration (cellAt (body.durations.getD []) i
                (placesToStay.length + j))⟩) := by
  have hne : ¬(placesToStay.length = 0 ∨ pointsOfInterest.length = 0) := by
    simp [hm, hn]
  have hcalc := calculateDistances_eq provider placesToStay pointsOfInterest
    transportProfile body hne hp hrows
  refine ⟨rfl, ?_, ?_⟩
  · rw [hcalc]; simp
  · intro i place hplace
    refine ⟨?_, rfl, ?_⟩
    · rw [hcalc, freshList_getElem, hplace]; rfl
    · intro j poi hpoi
      unfold freshPairs
      rw [List.getElem?_map, List.getElem?_enum, hpoi]
      rfl

/-- Witness for C2, on the spec §8 scenario (one anchor, two targets,
distances `[[0, 1000, 3000]]`): the entry for the second target is read at
row 0, column `1 + 1 = 2`. -/
theorem aggregate_positional_witness :
    (freshPairs (okBody.distances.getD []) (okBody.durations.getD [])
        [placeA].length [poiT1, poiT2] 0)[1]? =
      some (poiT2.id,
        ⟨convertDistance (cellAt (okBody.distances.getD []) 0
            ([placeA].length + 1)),
         convertDuration (cellAt (okBody.durations.getD []) 0
            ([placeA].length + 1))⟩) :=
  ((aggregate_positional (fun _ _ => okOutcome) [placeA] [poiT1, poiT2]
      TransportProfile.walking okBody (by decide) (by decide) rfl
      (by unfold rowsPresent; decide)).2.2 0 placeA rfl).2.2 1 poiT2 rfl

/-- C6: after a successful aggregation with `n ≥ 1` targets, every anchor's
`distancesToPOIs` holds exactly the converted matrix reads (`freshPairs`),
`cumulativeDistance`/`cumulativeTime` are the running `jsAdd` sums of those
converted per-target values, the averages are the cumulative values divided
by `n`, and multiplying `averageDistance` (or `averageTime`) back by `n`
yields the cumulative value exactly (rational arithmetic stands in for the
floating-point tolerance). -/
theorem aggregate_sums
    (provider : List LatLon → TransportProfile → ProviderOutcome)
    (placesToStay : List PlaceToStay) (pointsOfInterest : List PointOfInterest)
    (transportProfile : TransportProfile) (body : MatrixBody)
    (hm : placesToStay.length ≠ 0) (hn : pointsOfInterest.length ≠ 0)
    (hp : provider (allLocationsOf placesToStay pointsOfInterest)
      transportProfile = .response 200 body)
    (hrows : rowsPresent (body.distances.getD []) (body.durations.getD [])
      placesToStay.length) :
    ∀ (i : ℕ) (place : PlaceToStay), placesToStay[i]? = some place →
      ∃ out : PlaceToStay,
        (calculateDistances provider placesToStay pointsOfInterest
            transportProfile)[i]? = some out ∧
        out.distancesToPOIs =
          some (freshPairs (body.distances.getD []) (body.durations.getD [])
            placesToStay.length pointsOfInterest i) ∧
        out.cumulativeDistance =
          sumJS ((out.distancesToPOIs.getD []).map (fun pr => pr.2.distance)) ∧
        out.cumulativeTime =
          sumJS ((out.distancesToPOIs.getD []).map (fun pr => pr.2.duration)) ∧
        out.averageDistance =
          jsDiv out.cumulativeDistance (.num (pointsOfInterest.length : ℚ)) ∧
        out.averageTime =
          jsDiv out.cumulativeTime (.num (pointsOfInterest.length : ℚ)) ∧
        jsMul out.averageDistance (.num (pointsOfInterest.length : ℚ)) =
          out.cumulativeDistance ∧
        jsMul out.averageTime (.num (pointsOfInterest.length : ℚ)) =
          out.cumulativeTime := by
  have hne : ¬(placesToStay.length = 0 ∨ pointsOfInterest.length = 0) := by
    simp [hm, hn]
  have hcalc := calculateDistances_eq provider placesToStay pointsOfInterest
    transportProfile body hne hp hrows
  have hcast : (pointsOfInterest.length : ℚ) ≠ 0 := Nat.cast_ne_zero.mpr hn
  intro i place hplace
  refine ⟨freshPlace (body.distances.getD []) (body.durations.getD [])
      placesToStay.length pointsOfInterest i place,
    by rw [hcalc, freshList_getElem, hplace]; rfl,
    rfl, rfl, rfl, rfl, rfl, ?_, ?_⟩
  · exact jsDiv_mul_cancel _ _ hcast
      (foldl_jsAdd_num_or_nan _ _ (Or.inr ⟨0, rfl⟩))
  · exact jsDiv_mul_cancel _ _ hcast
      (foldl_jsAdd_num_or_nan _ _ (Or.inr ⟨0, rfl⟩))

/-- Witness for C6 on the spec §8 scenario. -/
theorem aggregate_sums_witness :
    ∃ out : PlaceToStay,
      (calculateDistances (fun _ _ => okOutcome) [placeA] [poiT1, poiT2]
          TransportProfile.walking)[0]? = some out ∧
      out.distancesToPOIs =
        some (freshPairs (okBody.distances.getD []) (okBody.durations.getD [])
          [placeA].length [poiT1, poiT2] 0) ∧
      out.cumulativeDistance =
        sumJS ((out.distancesToPOIs.getD []).map (fun pr => pr.2.distance)) ∧
      out.cumulativeTime =
        sumJS ((out.distancesToPOIs.getD []).map (fun pr => pr.2.duration)) ∧
      out.averageDistance =
        jsDiv out.cumulativeDistance (.num (([poiT1, poiT2].length : ℕ) : ℚ)) ∧
      out.averageTime =
        jsDiv out.cumulativeTime (.num (([poiT1, poiT2].length : ℕ) : ℚ)) ∧
      jsMul out.averageDistance (.num (([poiT1, poiT2].length : ℕ) : ℚ)) =
        out.cumulativeDistance ∧
      jsMul out.averageTime (.num (([poiT1, poiT2].length : ℕ) : ℚ)) =
        out.cumulativeTime :=
  aggregate_sums (fun _ _ => okOutcome) [placeA] [poiT1, poiT2]
    TransportProfile.walking okBody (by decide) (by decide) rfl
    (by unfold rowsPresent; decide) 0 placeA rfl

/-- C7: after a successful aggregation the key list of every returned
anchor's `distancesToPOIs` is exactly the ids of the current targets, in
order, and the result for anchor `i` is a full replacement: `freshPlace`
applied to the stored anchor, whose derived fields are computed from the
response alone — two anchors agreeing on the base fields (id, name,
location, note, url) but with arbitrary stale derived fields map to the same
result, so no field-by-field merge with stale values occurs. -/
theorem aggregate_full_replace
    (provider : List LatLon → TransportProfile → ProviderOutcome)
    (placesToStay : List PlaceToStay) (pointsOfInterest : List PointOfInterest)
    (transportProfile : TransportProfile) (body : MatrixBody)
    (hm : placesToStay.length ≠ 0) (hn : pointsOfInterest.length ≠ 0)
    (hp : provider (allLocationsOf placesToStay pointsOfInterest)
      transportProfile = .response 200 body)
    (hrows : rowsPresent (body.distances.getD []) (body.durations.getD [])
      placesToStay.length) :
    ∀ (i : ℕ) (place : PlaceToStay), placesToStay[i]? = some place →
      (calculateDistances provider placesToStay pointsOfInterest
          transportProfile)[i]? =
        some (freshPlace (body.distances.getD []) (body.durations.getD [])
          placesToStay.length pointsOfInterest i place) ∧
      ((freshPlace (body.distances.getD []) (body.durations.getD [])
          placesToStay.length pointsOfInterest i place).distancesToPOIs.getD
        []).map Prod.fst = pointsOfInterest.map PointOfInterest.id ∧
      ∀ other : PlaceToStay, other.id = place.id → other.name = place.name →
        other.location = place.location → other.note = place.note →
        other.url = place.url →
        freshPlace (body.distances.getD []) (body.durations.getD [])
            placesToStay.length pointsOfInterest i other =
          freshPlace (body.distances.getD []) (body.durations.getD [])
            placesToStay.length pointsOfInterest i place := by
  have hne : ¬(placesToStay.length = 0 ∨ pointsOfInterest.length = 0) := by
    simp [hm, hn]
  have hcalc := calculateDistances_eq provider placesToStay pointsOfInterest
    transportProfile body hne hp hrows
  intro i place hplace
  refine ⟨by rw [hcalc, freshList_getElem, hplace]; rfl, ?_, ?_⟩
  · show (freshPairs (body.distances.getD []) (body.durations.getD [])
        placesToStay.length pointsOfInterest i).map Prod.fst =
      pointsOfInterest.map PointOfInterest.id
    unfold freshPairs
    rw [List.map_map]
    have hsnd : pointsOfInterest.enum.map
        (Prod.fst ∘ pairFor (body.distances.getD []) (body.durations.getD [])
          placesToStay.length i) =
        (pointsOfInterest.enum.map Prod.snd).map PointOfInterest.id := by
      rw [List.map_map]; rfl
    rw [hsnd, List.enum_map_snd]
  · intro other hid hname hloc hnote hurl
    simp only [freshPlace]
    rw [hid, hname, hloc, hnote, hurl]

/-- Witness for C7 on the spec §8 scenario: the key list is exactly
`[T1, T2]`. -/
theorem aggregate_full_replace_witness :
    ((freshPlace (okBody.distances.getD []) (okBody.durations.getD [])
        [placeA].length [poiT1, poiT2] 0 placeA).distancesToPOIs.getD
      []).map Prod.fst = [poiT1, poiT2].map PointOfInterest.id :=
  ((aggregate_full_replace (fun _ _ => okOutcome) [placeA] [poiT1, poiT2]
      TransportProfile.walking okBody (by decide) (by decide) rfl
      (by unfold rowsPresent; decide)) 0 placeA rfl).2.1

/-- C1 (amended): an unreachable (`null`) matrix cell is not a hard failure
of the aggregation.  The conversion coerces a `null` cell to exactly `0`
miles and `0` minutes (JavaScript `null` coerces to the number `0` before
arithmetic), and an aggregation whose response matrices contain `null` cells
still succeeds whenever every anchor row is present: the full mapped anchor
list is produced, with the coerced zero stored for the affected pair and the
target kept, not dropped. -/
theorem null_cell_coerced
    (provider : List LatLon → TransportProfile → ProviderOutcome)
    (placesToStay : List PlaceToStay) (pointsOfInterest : List PointOfInterest)
    (transportProfile : TransportProfile) (body : MatrixBody)
    (hne : ¬(placesToStay.length = 0 ∨ pointsOfInterest.length = 0))
    (hp : provider (allLocationsOf placesToStay pointsOfInterest)
      transportProfile = .response 200 body)
    (hrows : rowsPresent (body.distances.getD []) (body.durations.getD [])
      placesToStay.length) :
    convertDistance JSVal.null = .num 0 ∧
    convertDuration JSVal.null = .num 0 ∧
    calculateDistances provider placesToStay pointsOfInterest transportProfile =
      placesToStay.enum.map (fun p =>
        freshPlace (body.distances.getD []) (body.durations.getD [])
          placesToStay.length pointsOfInterest p.1 p.2) := by
  refine ⟨?_, ?_, calculateDistances_eq provider placesToStay pointsOfInterest
    transportProfile body hne hp hrows⟩
  · norm_num [convertDistance, jsDiv, jsMul, JSVal.toNum]
  · norm_num [convertDuration, jsDiv, JSVal.toNum]

/-- Witness for the amended C1: the concrete null-cell aggregation
completes and returns the mapped list. -/
theorem null_cell_coerced_witness :
    convertDistance JSVal.null = .num 0 ∧
    convertDuration JSVal.null = .num 0 ∧
    calculateDistances (fun _ _ => nullOutcome) [placeA] [poiT1]
        TransportProfile.walking =
      [placeA].enum.map (fun p =>
        freshPlace (nullBody.distances.getD []) (nullBody.durations.getD [])
          [placeA].length [poiT1] p.1 p.2) :=
  null_cell_coerced (fun _ _ => nullOutcome) [placeA] [poiT1]
    TransportProfile.walking nullBody (by decide) rfl
    (by unfold rowsPresent; decide)

end Loco
